import Mathlib

/-!
Verification of the `OperationsComponent` widget (src/components/operations.rs)
of the gobang terminal database client.

The component owns four tabular sub-views (columns, constraints, foreign
keys, indexes), a `Focus` value naming the active tab, and a keybinding
configuration.  Its `update` method refreshes the four sub-views from a
metadata provider (`Pool`), and its `event` method routes an input key:
first to the focused sub-view, then to the copy shortcut, then to the four
tab-switch shortcuts.

The shallow embedding below translates `OperationsComponent::new`,
`OperationsComponent::focused_component`, `OperationsComponent::update` and
`OperationsComponent::event` from the Rust source.  Collaborators whose
code is outside the repository slice (`TableComponent`, `Pool`, the
clipboard, `KeyConfig`, `Key`) are modelled at their interface boundary;
mutation through `&mut self` becomes explicit state passing, and fallible
calls return `Except`, with the state a Rust caller would still observe
after an `Err` returned alongside the result.
-/

namespace Gobang

/-- Modelled from the spec: an input key.  The source's `Key` enum is only
compared for equality here, so any type with decidable equality serves. -/
abbrev Key := Nat

/-- Modelled from the spec: error payloads (`ProviderError`,
`ClipboardError`, sub-view event errors).  The source uses `anyhow::Error`,
which the component only propagates verbatim, so an abstract payload with
decidable equality suffices. -/
abbrev Err := String

/-- Modelled from the spec: a database identity (the source's
`database_tree::Database`, used only as an identity passed through). -/
structure Database where
  name : String
deriving DecidableEq

/-- Modelled from the spec: a table identity (the source's
`database_tree::Table`, used only as an identity passed through). -/
structure Table where
  name : String
deriving DecidableEq

/-- Modelled from the spec: a provider-returned metadata record, polymorphic
over `columns()` (the display row) and `fields()` (the header names). -/
structure MetadataRecord where
  columns : List String
  fields : List String
deriving DecidableEq, Inhabited

/-- Modelled from the spec: the keybinding configuration, read-only; only
the keys the component consults appear. -/
structure KeyConfig where
  copy : Key
  tab_columns : Key
  tab_constraints : Key
  tab_foreign_keys : Key
  tab_indexes : Key
deriving DecidableEq

/-- Modelled from the spec: the observable state of one Tabular Sub-View
(the source's `TableComponent`): its rows, its header, and the
(database, table) identity it was last populated with (`none` when reset). -/
structure TableComponent where
  rows : List (List String)
  headers : List String
  source : Option (Database × Table)
deriving DecidableEq

/-- Modelled from the spec: `TableComponent::new(key_config)` starts empty. -/
def TableComponent.new (_key_config : KeyConfig) : TableComponent :=
  { rows := [], headers := [], source := none }

/-- Modelled from the spec: `TableComponent::reset()` clears the sub-view:
no rows, no header, no table identity. -/
def TableComponent.reset (_self : TableComponent) : TableComponent :=
  { rows := [], headers := [], source := none }

/-- Modelled from the spec: `TableComponent::update(rows, headers, database,
table)` replaces the sub-view's contents with the given rows, header and
table identity. -/
def TableComponent.update (_self : TableComponent) (rows : List (List String))
    (headers : List String) (database : Database) (table : Table) :
    TableComponent :=
  { rows := rows, headers := headers, source := some (database, table) }

/-- Modelled from the spec: the metadata provider (`Pool`): one fallible
fetch per metadata kind, each taking the (database, table) pair. -/
structure Pool where
  get_columns : Database → Table → Except Err (List MetadataRecord)
  get_constraints : Database → Table → Except Err (List MetadataRecord)
  get_foreign_keys : Database → Table → Except Err (List MetadataRecord)
  get_indexes : Database → Table → Except Err (List MetadataRecord)

/-- The `Focus` enum of operations.rs: which of the four tabs is active. -/
inductive Focus where
  | NewUser
  | DelUser
  | NewGraph
  | DelGraph
deriving DecidableEq

/-- The `EventState` returned by component event handlers. -/
inductive EventState where
  | Consumed
  | NotConsumed
deriving DecidableEq

/-- The `OperationsComponent` struct: four owned sub-views, the focus, and
the keybinding configuration. -/
structure OperationsComponent where
  new_user : TableComponent
  del_user : TableComponent
  new_graph : TableComponent
  del_graph : TableComponent
  focus : Focus
  key_config : KeyConfig
deriving DecidableEq

/-- `OperationsComponent::new`: four fresh sub-views, focus starts at
`Focus::NewUser`, the key configuration is stored. -/
def OperationsComponent.new (key_config : KeyConfig) : OperationsComponent :=
  { new_user := TableComponent.new key_config
    del_user := TableComponent.new key_config
    new_graph := TableComponent.new key_config
    del_graph := TableComponent.new key_config
    focus := Focus.NewUser
    key_config := key_config }

/-- `OperationsComponent::focused_component`: the sub-view selected by the
current focus (the read side of the `&mut TableComponent` the source
returns). -/
def OperationsComponent.focused_component (self : OperationsComponent) :
    TableComponent :=
  match self.focus with
  | Focus.NewUser => self.new_user
  | Focus.DelUser => self.del_user
  | Focus.NewGraph => self.new_graph
  | Focus.DelGraph => self.del_graph

/-- The write side of `OperationsComponent::focused_component`: storing a
new sub-view state through the mutable reference it returns. -/
def OperationsComponent.set_focused (self : OperationsComponent)
    (tc : TableComponent) : OperationsComponent :=
  match self.focus with
  | Focus.NewUser => { self with new_user := tc }
  | Focus.DelUser => { self with del_user := tc }
  | Focus.NewGraph => { self with new_graph := tc }
  | Focus.DelGraph => { self with del_graph := tc }

/-- Reading the sub-view owned for a given focus value (used to state
properties about a field chosen by a `Focus`). -/
def OperationsComponent.viewAt (self : OperationsComponent) :
    Focus → TableComponent
  | Focus.NewUser => self.new_user
  | Focus.DelUser => self.del_user
  | Focus.NewGraph => self.new_graph
  | Focus.DelGraph => self.del_graph

/-- `OperationsComponent::update`: for each metadata kind in the fixed
order columns, constraints, foreign keys, indexes: reset the kind's
sub-view, fetch the kind from the pool (`?` propagates the first provider
error, keeping the mutations made so far), and if the result is non-empty
populate the sub-view with each record's `columns()`, the first record's
`fields()` as header, and the (database, table) identity.  Returns the
`Result` together with the component state the caller observes. -/
def OperationsComponent.update (self : OperationsComponent)
    (database : Database) (table : Table) (pool : Pool) :
    Except Err Unit × OperationsComponent :=
  let s1 := { self with new_user := self.new_user.reset }
  match pool.get_columns database table with
  | Except.error e => (Except.error e, s1)
  | Except.ok columns =>
    let s2 :=
      match columns with
      | [] => s1
      | c0 :: _ =>
        let tc := s1.new_user.update (columns.map MetadataRecord.columns)
          c0.fields database table
        { s1 with new_user := tc }
    let s3 := { s2 with del_user := s2.del_user.reset }
    match pool.get_constraints database table with
    | Except.error e => (Except.error e, s3)
    | Except.ok constraints =>
      let s4 :=
        match constraints with
        | [] => s3
        | c0 :: _ =>
          let tc := s3.del_user.update (constraints.map MetadataRecord.columns)
            c0.fields database table
          { s3 with del_user := tc }
      let s5 := { s4 with new_graph := s4.new_graph.reset }
      match pool.get_foreign_keys database table with
      | Except.error e => (Except.error e, s5)
      | Except.ok foreign_keys =>
        let s6 :=
          match foreign_keys with
          | [] => s5
          | c0 :: _ =>
            let tc := s5.new_graph.update
              (foreign_keys.map MetadataRecord.columns) c0.fields database table
            { s5 with new_graph := tc }
        let s7 := { s6 with del_graph := s6.del_graph.reset }
        match pool.get_indexes database table with
        | Except.error e => (Except.error e, s7)
        | Except.ok indexes =>
          let s8 :=
            match indexes with
            | [] => s7
            | c0 :: _ =>
              let tc := s7.del_graph.update
                (indexes.map MetadataRecord.columns) c0.fields database table
              { s7 with del_graph := tc }
          (Except.ok (), s8)

/-- The behaviour of the focused sub-view's own `event` handler, an
external collaborator: given the sub-view's state and the key, it returns
its `Result<EventState>` and its (possibly mutated) state — the mutation
persists even when the result is an error, as with `&mut self` in Rust. -/
abbrev SubEventFn := TableComponent → Key → Except Err EventState × TableComponent

/-- The behaviour of the sub-view's `selected_cells()` accessor. -/
abbrev SelectedCellsFn := TableComponent → Option String

/-- The behaviour of the `copy_to_clipboard` collaborator. -/
abbrev ClipboardFn := String → Except Err Unit

/-- `OperationsComponent::event`: forward the key to the focused sub-view
(propagating its error); then, if the key is the copy key, copy the focused
sub-view's selected cells (if any) to the clipboard, propagating a
clipboard failure; else if the key is one of the four tab-switch keys, set
the focus accordingly; finally return `Ok(EventState::NotConsumed)`.
Returns the `Result`, the component state the caller observes, and the list
of texts passed to the clipboard during the call. -/
def OperationsComponent.event (subEvent : SubEventFn)
    (selected_cells : SelectedCellsFn) (copy_to_clipboard : ClipboardFn)
    (self : OperationsComponent) (key : Key) :
    Except Err EventState × OperationsComponent × List String :=
  let r := subEvent self.focused_component key
  let s1 := self.set_focused r.2
  match r.1 with
  | Except.error e => (Except.error e, s1, [])
  | Except.ok _ =>
    if key = s1.key_config.copy then
      match selected_cells s1.focused_component with
      | some text =>
        match copy_to_clipboard text with
        | Except.error e => (Except.error e, s1, [text])
        | Except.ok _ => (Except.ok EventState.NotConsumed, s1, [text])
      | none => (Except.ok EventState.NotConsumed, s1, [])
    else if key = s1.key_config.tab_columns then
      (Except.ok EventState.NotConsumed, { s1 with focus := Focus.NewUser }, [])
    else if key = s1.key_config.tab_constraints then
      (Except.ok EventState.NotConsumed, { s1 with focus := Focus.DelUser }, [])
    else if key = s1.key_config.tab_foreign_keys then
      (Except.ok EventState.NotConsumed, { s1 with focus := Focus.NewGraph }, [])
    else if key = s1.key_config.tab_indexes then
      (Except.ok EventState.NotConsumed, { s1 with focus := Focus.DelGraph }, [])
    else
      (Except.ok EventState.NotConsumed, s1, [])

/-! ### Derived views and sample data

The remaining definitions are not part of the source: they are the
concrete values (key configurations, providers, records, collaborator
behaviours) used by witnesses and the counterexample, plus two helpers
(`emptyView`, `populatedView`) naming the two states `update` can leave a
sub-view in. -/

/-- The reset (cleared) sub-view state: no rows, no header, no identity. -/
def emptyView : TableComponent :=
  { rows := [], headers := [], source := none }

/-- The sub-view state `update` produces for a non-empty record list with
first record `c0`: one row per record via its `columns()`, the header from
`c0`'s `fields()`, and the given (database, table) identity. -/
def populatedView (c0 : MetadataRecord) (records : List MetadataRecord)
    (database : Database) (table : Table) : TableComponent :=
  { rows := records.map MetadataRecord.columns
    headers := c0.fields
    source := some (database, table) }

/-- A key configuration with five pairwise distinct keys. -/
def sampleKc : KeyConfig :=
  { copy := 1, tab_columns := 2, tab_constraints := 3
    tab_foreign_keys := 4, tab_indexes := 5 }

/-- A key configuration in which the columns-tab key and the indexes-tab
key are bound to the same key, while the copy key differs from both. -/
def clashKc : KeyConfig :=
  { copy := 1, tab_columns := 5, tab_constraints := 3
    tab_foreign_keys := 4, tab_indexes := 5 }

def sampleDb : Database := { name := "app_db" }

def sampleTable : Table := { name := "users" }

def colRec1 : MetadataRecord :=
  { columns := ["id", "INT", "NO"], fields := ["name", "type", "null"] }

def colRec2 : MetadataRecord :=
  { columns := ["email", "TEXT", "YES"], fields := ["name", "type", "null"] }

def colRec3 : MetadataRecord :=
  { columns := ["age", "INT", "YES"], fields := ["name", "type", "null"] }

def conRec1 : MetadataRecord :=
  { columns := ["pk_users", "PRIMARY KEY"], fields := ["name", "kind"] }

def fkRec1 : MetadataRecord :=
  { columns := ["fk_orders", "orders"], fields := ["name", "ref_table"] }

def idxRec1 : MetadataRecord :=
  { columns := ["idx_email", "email"], fields := ["name", "column"] }

def idxRec2 : MetadataRecord :=
  { columns := ["idx_age", "age"], fields := ["name", "column"] }

/-- A provider for which all four kinds return non-empty record lists. -/
def poolAll : Pool :=
  { get_columns := fun _ _ => Except.ok [colRec1, colRec2, colRec3]
    get_constraints := fun _ _ => Except.ok [conRec1]
    get_foreign_keys := fun _ _ => Except.ok [fkRec1]
    get_indexes := fun _ _ => Except.ok [idxRec1, idxRec2] }

/-- A provider for which all four kinds return empty record lists. -/
def poolEmpty : Pool :=
  { get_columns := fun _ _ => Except.ok []
    get_constraints := fun _ _ => Except.ok []
    get_foreign_keys := fun _ _ => Except.ok []
    get_indexes := fun _ _ => Except.ok [] }

/-- A provider whose foreign-key fetch fails while the columns and
constraints fetches succeed with non-empty results. -/
def poolFkFail : Pool :=
  { get_columns := fun _ _ => Except.ok [colRec1, colRec2, colRec3]
    get_constraints := fun _ _ => Except.ok [conRec1]
    get_foreign_keys := fun _ _ => Except.error "fk fetch failed"
    get_indexes := fun _ _ => Except.ok [idxRec1, idxRec2] }

/-- A provider whose very first (columns) fetch fails. -/
def poolColsFail : Pool :=
  { get_columns := fun _ _ => Except.error "columns fetch failed"
    get_constraints := fun _ _ => Except.ok [conRec1]
    get_foreign_keys := fun _ _ => Except.ok [fkRec1]
    get_indexes := fun _ _ => Except.ok [idxRec1, idxRec2] }

/-- A freshly constructed component with the sample key configuration. -/
def opsSample : OperationsComponent := OperationsComponent.new sampleKc

/-- A component over `clashKc` whose focus is the foreign-keys tab. -/
def opsClash : OperationsComponent :=
  { OperationsComponent.new clashKc with focus := Focus.NewGraph }

/-- A sub-view event handler that consumes nothing and mutates nothing. -/
def subOk : SubEventFn := fun tc _ => (Except.ok EventState.NotConsumed, tc)

/-- A sub-view event handler that reports the key consumed. -/
def subConsume : SubEventFn := fun tc _ => (Except.ok EventState.Consumed, tc)

/-- A sub-view event handler that fails without mutating. -/
def subFail : SubEventFn := fun tc _ => (Except.error "sub-view failed", tc)

/-- A `selected_cells` behaviour with no selection. -/
def selNone : SelectedCellsFn := fun _ => none

/-- A `selected_cells` behaviour always returning the text `"cell"`. -/
def selSome : SelectedCellsFn := fun _ => some "cell"

/-- A clipboard that always succeeds. -/
def clipOk : ClipboardFn := fun _ => Except.ok ()

/-- A clipboard that always fails. -/
def clipFail : ClipboardFn := fun _ => Except.error "clipboard failed"

/-! ### Helper lemmas about the mutable-reference model -/

@[simp]
theorem set_focused_key_config (self : OperationsComponent)
    (tc : TableComponent) :
    (self.set_focused tc).key_config = self.key_config := by
  unfold OperationsComponent.set_focused
  cases self.focus <;> rfl

@[simp]
theorem set_focused_focus (self : OperationsComponent) (tc : TableComponent) :
    (self.set_focused tc).focus = self.focus := by
  unfold OperationsComponent.set_focused
  cases self.focus <;> rfl

theorem viewAt_set_focused (self : OperationsComponent) (tc : TableComponent) :
    (self.set_focused tc).viewAt self.focus = tc := by
  unfold OperationsComponent.set_focused OperationsComponent.viewAt
  cases self.focus <;> rfl

/-! ### Claim theorems -/

/-- C1: for each of the four metadata kinds, if the provider call for that
kind returns a non-empty list of N records during `update`, the
corresponding sub-view (`new_user` for columns, `del_user` for constraints,
`new_graph` for foreign keys, `del_graph` for indexes) ends the refresh
populated with exactly N rows (each record converted via its `columns()`
adapter), the header equal to the first record's field names, and the given
database and table identity.  Kinds later in the fixed order are only
fetched once the earlier kinds succeeded, so each conjunct assumes success
of the fetches that precede it. -/
theorem update_nonempty_populates (pool : Pool) (database : Database)
    (table : Table) (self : OperationsComponent) :
    (∀ c0 ct, pool.get_columns database table = Except.ok (c0 :: ct) →
      (self.update database table pool).2.new_user =
        populatedView c0 (c0 :: ct) database table ∧
      (self.update database table pool).2.new_user.rows.length =
        (c0 :: ct).length) ∧
    (∀ cs k0 kt, pool.get_columns database table = Except.ok cs →
      pool.get_constraints database table = Except.ok (k0 :: kt) →
      (self.update database table pool).2.del_user =
        populatedView k0 (k0 :: kt) database table ∧
      (self.update database table pool).2.del_user.rows.length =
        (k0 :: kt).length) ∧
    (∀ cs ks f0 ft, pool.get_columns database table = Except.ok cs →
      pool.get_constraints database table = Except.ok ks →
      pool.get_foreign_keys database table = Except.ok (f0 :: ft) →
      (self.update database table pool).2.new_graph =
        populatedView f0 (f0 :: ft) database table ∧
      (self.update database table pool).2.new_graph.rows.length =
        (f0 :: ft).length) ∧
    (∀ cs ks fs i0 it, pool.get_columns database table = Except.ok cs →
      pool.get_constraints database table = Except.ok ks →
      pool.get_foreign_keys database table = Except.ok fs →
      pool.get_indexes database table = Except.ok (i0 :: it) →
      (self.update database table pool).2.del_graph =
        populatedView i0 (i0 :: it) database table ∧
      (self.update database table pool).2.del_graph.rows.length =
        (i0 :: it).length) := by
  refine ⟨?_, ?_, ?_, ?_⟩
  · intro c0 ct hc
    unfold OperationsComponent.update
    rw [hc]
    repeat' split
    all_goals
      simp_all [TableComponent.update, TableComponent.reset, populatedView]
  · intro cs k0 kt hc hk
    unfold OperationsComponent.update
    rw [hc, hk]
    repeat' split
    all_goals
      simp_all [TableComponent.update, TableComponent.reset, populatedView]
  · intro cs ks f0 ft hc hk hf
    unfold OperationsComponent.update
    rw [hc, hk, hf]
    repeat' split
    all_goals
      simp_all [TableComponent.update, TableComponent.reset, populatedView]
  · intro cs ks fs i0 it hc hk hf hi
    unfold OperationsComponent.update
    rw [hc, hk, hf, hi]
    repeat' split
    all_goals
      simp_all [TableComponent.update, TableComponent.reset, populatedView]

/-- Witness for C1: with a provider returning 3 columns, 1 constraint,
1 foreign key and 2 indexes, all four sub-views end populated as stated. -/
theorem update_nonempty_populates_witness :
    (opsSample.update sampleDb sampleTable poolAll).2.new_user =
      populatedView colRec1 [colRec1, colRec2, colRec3] sampleDb sampleTable ∧
    (opsSample.update sampleDb sampleTable poolAll).2.del_user =
      populatedView conRec1 [conRec1] sampleDb sampleTable ∧
    (opsSample.update sampleDb sampleTable poolAll).2.new_graph =
      populatedView fkRec1 [fkRec1] sampleDb sampleTable ∧
    (opsSample.update sampleDb sampleTable poolAll).2.del_graph =
      populatedView idxRec1 [idxRec1, idxRec2] sampleDb sampleTable := by
  have h := update_nonempty_populates poolAll sampleDb sampleTable opsSample
  exact ⟨(h.1 colRec1 [colRec2, colRec3] rfl).1,
    (h.2.1 [colRec1, colRec2, colRec3] conRec1 [] rfl rfl).1,
    (h.2.2.1 [colRec1, colRec2, colRec3] [conRec1] fkRec1 [] rfl rfl rfl).1,
    (h.2.2.2 [colRec1, colRec2, colRec3] [conRec1] [fkRec1] idxRec1 [idxRec2]
      rfl rfl rfl rfl).1⟩

/-- C2: if the foreign-key fetch fails after the columns and constraints
fetches already succeeded with non-empty results in the same `update` call,
`update` returns that provider error, and the columns sub-view (`new_user`)
and constraints sub-view (`del_user`) retain their newly-populated
contents — no rollback. -/
theorem update_foreign_key_failure_keeps_earlier (pool : Pool)
    (database : Database) (table : Table) (self : OperationsComponent)
    (c0 : MetadataRecord) (ct : List MetadataRecord) (k0 : MetadataRecord)
    (kt : List MetadataRecord) (e : Err)
    (hc : pool.get_columns database table = Except.ok (c0 :: ct))
    (hk : pool.get_constraints database table = Except.ok (k0 :: kt))
    (hf : pool.get_foreign_keys database table = Except.error e) :
    (self.update database table pool).1 = Except.error e ∧
    (self.update database table pool).2.new_user =
      populatedView c0 (c0 :: ct) database table ∧
    (self.update database table pool).2.del_user =
      populatedView k0 (k0 :: kt) database table := by
  unfold OperationsComponent.update
  rw [hc, hk, hf]
  simp [TableComponent.update, TableComponent.reset, populatedView]

/-- Witness for C2 at a provider whose foreign-key fetch fails after
non-empty columns and constraints results. -/
theorem update_foreign_key_failure_keeps_earlier_witness :
    (opsSample.update sampleDb sampleTable poolFkFail).1 =
      Except.error "fk fetch failed" ∧
    (opsSample.update sampleDb sampleTable poolFkFail).2.new_user =
      populatedView colRec1 [colRec1, colRec2, colRec3] sampleDb sampleTable ∧
    (opsSample.update sampleDb sampleTable poolFkFail).2.del_user =
      populatedView conRec1 [conRec1] sampleDb sampleTable :=
  update_foreign_key_failure_keeps_earlier poolFkFail sampleDb sampleTable
    opsSample colRec1 [colRec2, colRec3] conRec1 [] "fk fetch failed"
    rfl rfl rfl

/-- C3: for each of the four metadata kinds, if the provider call for that
kind returns an empty list during `update`, the corresponding sub-view ends
the refresh in the reset (empty) state: no rows, no header, no identity. -/
theorem update_empty_resets (pool : Pool) (database : Database)
    (table : Table) (self : OperationsComponent) :
    (pool.get_columns database table = Except.ok [] →
      (self.update database table pool).2.new_user = emptyView) ∧
    (∀ cs, pool.get_columns database table = Except.ok cs →
      pool.get_constraints database table = Except.ok [] →
      (self.update database table pool).2.del_user = emptyView) ∧
    (∀ cs ks, pool.get_columns database table = Except.ok cs →
      pool.get_constraints database table = Except.ok ks →
      pool.get_foreign_keys database table = Except.ok [] →
      (self.update database table pool).2.new_graph = emptyView) ∧
    (∀ cs ks fs, pool.get_columns database table = Except.ok cs →
      pool.get_constraints database table = Except.ok ks →
      pool.get_foreign_keys database table = Except.ok fs →
      pool.get_indexes database table = Except.ok [] →
      (self.update database table pool).2.del_graph = emptyView) := by
  refine ⟨?_, ?_, ?_, ?_⟩
  · intro hc
    unfold OperationsComponent.update
    rw [hc]
    repeat' split
    all_goals simp_all [TableComponent.update, TableComponent.reset, emptyView]
  · intro cs hc hk
    unfold OperationsComponent.update
    rw [hc, hk]
    repeat' split
    all_goals simp_all [TableComponent.update, TableComponent.reset, emptyView]
  · intro cs ks hc hk hf
    unfold OperationsComponent.update
    rw [hc, hk, hf]
    repeat' split
    all_goals simp_all [TableComponent.update, TableComponent.reset, emptyView]
  · intro cs ks fs hc hk hf hi
    unfold OperationsComponent.update
    rw [hc, hk, hf, hi]
    repeat' split
    all_goals simp_all [TableComponent.update, TableComponent.reset, emptyView]

/-- Witness for C3: with a provider returning four empty lists, all four
sub-views end the refresh reset. -/
theorem update_empty_resets_witness :
    (opsSample.update sampleDb sampleTable poolEmpty).2.new_user = emptyView ∧
    (opsSample.update sampleDb sampleTable poolEmpty).2.del_user = emptyView ∧
    (opsSample.update sampleDb sampleTable poolEmpty).2.new_graph = emptyView ∧
    (opsSample.update sampleDb sampleTable poolEmpty).2.del_graph =
      emptyView := by
  have h := update_empty_resets poolEmpty sampleDb sampleTable opsSample
  exact ⟨h.1 rfl, h.2.1 [] rfl rfl, h.2.2.1 [] [] rfl rfl rfl,
    h.2.2.2 [] [] [] rfl rfl rfl rfl⟩

/-- Counterexample for C4 as stated: with a key configuration binding the
columns tab and the indexes tab to the same key (distinct from the copy
key), routing that "switch to indexes" key through `event` from the
foreign-keys tab sets the focus to the columns tab (`NewUser`), not to the
indexes tab (`DelGraph`), because the columns comparison is checked
first. -/
theorem tab_indexes_key_collision_cex :
    clashKc.tab_indexes ≠ clashKc.copy ∧
    opsClash.key_config = clashKc ∧
    (OperationsComponent.event subOk selNone clipOk opsClash
      clashKc.tab_indexes).1 = Except.ok EventState.NotConsumed ∧
    (OperationsComponent.event subOk selNone clipOk opsClash
      clashKc.tab_indexes).2.1.focus = Focus.NewUser ∧
    Focus.NewUser ≠ Focus.DelGraph := by
  refine ⟨by decide, rfl, rfl, rfl, by decide⟩

/-- C4 (amended): a freshly constructed `OperationsComponent` has focus
`NewUser` (the columns tab); and for every prior focus value, routing the
`tab_indexes` key through `event` sets the focus to `DelGraph` (the indexes
tab), provided that key is distinct from the copy key and from the three
tab-switch keys checked before it, and that the call returns without
error. -/
theorem tab_switch_indexes_amended (subEvent : SubEventFn)
    (selected_cells : SelectedCellsFn) (copy_to_clipboard : ClipboardFn)
    (self : OperationsComponent) (st : EventState)
    (h1 : self.key_config.tab_indexes ≠ self.key_config.copy)
    (h2 : self.key_config.tab_indexes ≠ self.key_config.tab_columns)
    (h3 : self.key_config.tab_indexes ≠ self.key_config.tab_constraints)
    (h4 : self.key_config.tab_indexes ≠ self.key_config.tab_foreign_keys)
    (hok : (OperationsComponent.event subEvent selected_cells
      copy_to_clipboard self self.key_config.tab_indexes).1 =
      Except.ok st) :
    (∀ kc : KeyConfig, (OperationsComponent.new kc).focus = Focus.NewUser) ∧
    (OperationsComponent.event subEvent selected_cells copy_to_clipboard
      self self.key_config.tab_indexes).2.1.focus = Focus.DelGraph := by
  refine ⟨fun kc => rfl, ?_⟩
  rcases hr : subEvent self.focused_component self.key_config.tab_indexes
    with ⟨res, tc⟩
  unfold OperationsComponent.event at hok ⊢
  rw [hr] at hok ⊢
  rcases res with e | a
  · simp at hok
  · simp [h1, h2, h3, h4]

/-- Witness for C4 (amended) at the five-distinct-keys configuration: a
fresh component focuses the columns tab, and routing the indexes key from
it moves the focus to the indexes tab. -/
theorem tab_switch_indexes_amended_witness :
    (OperationsComponent.new sampleKc).focus = Focus.NewUser ∧
    (OperationsComponent.event subOk selNone clipOk opsSample
      sampleKc.tab_indexes).2.1.focus = Focus.DelGraph := by
  have h := tab_switch_indexes_amended subOk selNone clipOk opsSample
    EventState.NotConsumed (by decide) (by decide) (by decide) (by decide) rfl
  exact ⟨h.1 sampleKc, h.2⟩

/-- C5: whenever `event` returns successfully, the returned value is
`EventState::NotConsumed` — the router never reports having consumed a key,
even when it performed a copy or a tab switch in response to it. -/
theorem event_result_not_consumed (subEvent : SubEventFn)
    (selected_cells : SelectedCellsFn) (copy_to_clipboard : ClipboardFn)
    (self : OperationsComponent) (key : Key) (st : EventState)
    (h : (OperationsComponent.event subEvent selected_cells copy_to_clipboard
      self key).1 = Except.ok st) :
    st = EventState.NotConsumed := by
  unfold OperationsComponent.event at h
  simp only [] at h
  repeat' split at h
  all_goals simp at h
  all_goals first
  | exact h
  | exact h.symm

/-- Witness for C5: a concrete successful call returns `NotConsumed`. -/
theorem event_result_not_consumed_witness :
    (OperationsComponent.event subOk selNone clipOk opsSample 9).1 =
      Except.ok EventState.NotConsumed ∧
    EventState.NotConsumed = EventState.NotConsumed :=
  ⟨rfl, event_result_not_consumed subOk selNone clipOk opsSample 9
    EventState.NotConsumed rfl⟩

/-- C6: when `event` receives the configured copy key and the focused
sub-view's `selected_cells()` yields a selection, exactly one clipboard
write is performed, with exactly that text (and a clipboard failure becomes
`event`'s error result, while on clipboard success the call succeeds); when
`selected_cells()` yields no selection, zero clipboard writes are
performed.  The selection is read from the focused sub-view's state after
the key was forwarded to it. -/
theorem event_copy_clipboard (subEvent : SubEventFn)
    (selected_cells : SelectedCellsFn) (copy_to_clipboard : ClipboardFn)
    (self : OperationsComponent) (key : Key) (st : EventState)
    (hk : key = self.key_config.copy)
    (hsub : (subEvent self.focused_component key).1 = Except.ok st) :
    (∀ text, selected_cells (self.set_focused
        (subEvent self.focused_component key).2).focused_component =
        some text →
      (OperationsComponent.event subEvent selected_cells copy_to_clipboard
        self key).2.2 = [text] ∧
      (∀ e, copy_to_clipboard text = Except.error e →
        (OperationsComponent.event subEvent selected_cells copy_to_clipboard
          self key).1 = Except.error e) ∧
      (∀ u, copy_to_clipboard text = Except.ok u →
        (OperationsComponent.event subEvent selected_cells copy_to_clipboard
          self key).1 = Except.ok EventState.NotConsumed)) ∧
    (selected_cells (self.set_focused
        (subEvent self.focused_component key).2).focused_component = none →
      (OperationsComponent.event subEvent selected_cells copy_to_clipboard
        self key).2.2 = []) := by
  subst hk
  rcases hr : subEvent self.focused_component self.key_config.copy
    with ⟨res, tc⟩
  rw [hr] at hsub
  have hres : res = Except.ok st := hsub
  subst hres
  unfold OperationsComponent.event
  rw [hr]
  constructor
  · intro text hsel
    simp only [Prod.snd] at hsel
    rcases hclip : copy_to_clipboard text with e | u
    · simp [hsel, hclip]
    · simp [hsel, hclip]
  · intro hsel
    simp only [Prod.snd] at hsel
    simp [hsel]

/-- Witness for C6: with a selection `"cell"` and a failing clipboard,
exactly one write of `"cell"` is recorded and the failure is returned. -/
theorem event_copy_clipboard_witness :
    (OperationsComponent.event subOk selSome clipFail opsSample 1).2.2 =
      ["cell"] ∧
    (OperationsComponent.event subOk selSome clipFail opsSample 1).1 =
      Except.error "clipboard failed" := by
  have h := event_copy_clipboard subOk selSome clipFail opsSample 1
    EventState.NotConsumed rfl rfl
  have h2 := h.1 "cell" rfl
  exact ⟨h2.1, h2.2.1 "clipboard failed" rfl⟩

/-- C7: on every key, `event` first forwards the key to the sub-view named
by the current focus, storing that sub-view's (possibly mutated) state
back; the sub-view's consumed/not-consumed return value is never read (two
sub-view behaviours differing only in that value yield identical results);
and a sub-view error is propagated verbatim as `event`'s result, aborting
the copy and tab-switch handling (focus unchanged, no clipboard write). -/
theorem event_forwards_to_focused (subEvent : SubEventFn)
    (selected_cells : SelectedCellsFn) (copy_to_clipboard : ClipboardFn)
    (self : OperationsComponent) (key : Key) :
    ((OperationsComponent.event subEvent selected_cells copy_to_clipboard
        self key).2.1.viewAt self.focus =
      (subEvent self.focused_component key).2) ∧
    (∀ e, (subEvent self.focused_component key).1 = Except.error e →
      (OperationsComponent.event subEvent selected_cells copy_to_clipboard
        self key).1 = Except.error e ∧
      (OperationsComponent.event subEvent selected_cells copy_to_clipboard
        self key).2.1.focus = self.focus ∧
      (OperationsComponent.event subEvent selected_cells copy_to_clipboard
        self key).2.2 = []) ∧
    (∀ subEvent2 st st2 tc,
      subEvent self.focused_component key = (Except.ok st, tc) →
      subEvent2 self.focused_component key = (Except.ok st2, tc) →
      OperationsComponent.event subEvent selected_cells copy_to_clipboard
        self key =
      OperationsComponent.event subEvent2 selected_cells copy_to_clipboard
        self key) := by
  refine ⟨?_, ?_, ?_⟩
  · rcases hr : subEvent self.focused_component key with ⟨res, tc⟩
    obtain ⟨nu, du, ng, dg, fc, kc⟩ := self
    unfold OperationsComponent.event
    rw [hr]
    cases fc <;> cases res <;> (try simp only []) <;> (repeat' split) <;>
      simp_all [OperationsComponent.set_focused, OperationsComponent.viewAt]
  · intro e he
    rcases hr : subEvent self.focused_component key with ⟨res, tc⟩
    rw [hr] at he
    have hres : res = Except.error e := he
    subst hres
    unfold OperationsComponent.event
    rw [hr]
    simp
  · intro subEvent2 st st2 tc hA hB
    unfold OperationsComponent.event
    rw [hA, hB]

/-- Witness for C7: a failing sub-view handler makes a concrete `event`
call return that error with the mutated sub-view stored at the original
focus, and two successful handlers differing only in their consumed flag
give identical results. -/
theorem event_forwards_to_focused_witness :
    (OperationsComponent.event subFail selNone clipOk opsSample 9).1 =
      Except.error "sub-view failed" ∧
    (OperationsComponent.event subFail selNone clipOk opsSample 9).2.1.viewAt
      opsSample.focus = (subFail opsSample.focused_component 9).2 ∧
    OperationsComponent.event subOk selNone clipOk opsSample 9 =
      OperationsComponent.event subConsume selNone clipOk opsSample 9 := by
  have hA := event_forwards_to_focused subFail selNone clipOk opsSample 9
  have hB := event_forwards_to_focused subOk selNone clipOk opsSample 9
  exact ⟨(hA.2.1 "sub-view failed" rfl).1, hA.1,
    hB.2.2 subConsume EventState.NotConsumed EventState.Consumed
      opsSample.focused_component rfl rfl⟩

/-- C8: `update` never changes the focus (and never changes the key
configuration): for every provider outcome, only the four sub-view fields
are mutated. -/
theorem update_preserves_focus (self : OperationsComponent)
    (database : Database) (table : Table) (pool : Pool) :
    (self.update database table pool).2.focus = self.focus ∧
    (self.update database table pool).2.key_config = self.key_config := by
  unfold OperationsComponent.update
  repeat' split
  all_goals simp

/-- C9: the `Focus` value is one of exactly four variants, and
`focused_component` is total: for every focus value it returns exactly the
sub-view field that focus names. -/
theorem focused_component_total (self : OperationsComponent) :
    (∀ f : Focus, f = Focus.NewUser ∨ f = Focus.DelUser ∨
      f = Focus.NewGraph ∨ f = Focus.DelGraph) ∧
    (self.focus = Focus.NewUser → self.focused_component = self.new_user) ∧
    (self.focus = Focus.DelUser → self.focused_component = self.del_user) ∧
    (self.focus = Focus.NewGraph → self.focused_component = self.new_graph) ∧
    (self.focus = Focus.DelGraph →
      self.focused_component = self.del_graph) := by
  refine ⟨fun f => by cases f <;> simp, ?_, ?_, ?_, ?_⟩ <;>
    · intro h
      unfold OperationsComponent.focused_component
      rw [h]

/-- Witness for C9 at a concrete component whose focus is the columns
tab. -/
theorem focused_component_total_witness :
    opsSample.focus = Focus.NewUser ∧
    opsSample.focused_component = opsSample.new_user :=
  ⟨rfl, (focused_component_total opsSample).2.1 rfl⟩

/-- C10: `update` handles the four kinds in the fixed order columns,
constraints, foreign keys, indexes, resetting each kind's sub-view before
fetching that kind: when the provider call for a kind fails, `update`
returns that error, that kind's own sub-view is left reset (empty), and the
sub-views of every later kind are left exactly as they were before the
call. -/
theorem update_failure_leaves_later_untouched (pool : Pool)
    (database : Database) (table : Table) (self : OperationsComponent) :
    (∀ e, pool.get_columns database table = Except.error e →
      (self.update database table pool).1 = Except.error e ∧
      (self.update database table pool).2.new_user = emptyView ∧
      (self.update database table pool).2.del_user = self.del_user ∧
      (self.update database table pool).2.new_graph = self.new_graph ∧
      (self.update database table pool).2.del_graph = self.del_graph) ∧
    (∀ cs e, pool.get_columns database table = Except.ok cs →
      pool.get_constraints database table = Except.error e →
      (self.update database table pool).1 = Except.error e ∧
      (self.update database table pool).2.del_user = emptyView ∧
      (self.update database table pool).2.new_graph = self.new_graph ∧
      (self.update database table pool).2.del_graph = self.del_graph) ∧
    (∀ cs ks e, pool.get_columns database table = Except.ok cs →
      pool.get_constraints database table = Except.ok ks →
      pool.get_foreign_keys database table = Except.error e →
      (self.update database table pool).1 = Except.error e ∧
      (self.update database table pool).2.new_graph = emptyView ∧
      (self.update database table pool).2.del_graph = self.del_graph) ∧
    (∀ cs ks fs e, pool.get_columns database table = Except.ok cs →
      pool.get_constraints database table = Except.ok ks →
      pool.get_foreign_keys database table = Except.ok fs →
      pool.get_indexes database table = Except.error e →
      (self.update database table pool).1 = Except.error e ∧
      (self.update database table pool).2.del_graph = emptyView) := by
  refine ⟨?_, ?_, ?_, ?_⟩
  · intro e hc
    unfold OperationsComponent.update
    rw [hc]
    simp [TableComponent.reset, emptyView]
  · intro cs e hc hk
    unfold OperationsComponent.update
    rw [hc, hk]
    repeat' split
    all_goals simp_all [TableComponent.update, TableComponent.reset, emptyView]
  · intro cs ks e hc hk hf
    unfold OperationsComponent.update
    rw [hc, hk, hf]
    repeat' split
    all_goals simp_all [TableComponent.update, TableComponent.reset, emptyView]
  · intro cs ks fs e hc hk hf hi
    unfold OperationsComponent.update
    rw [hc, hk, hf, hi]
    repeat' split
    all_goals simp_all [TableComponent.update, TableComponent.reset, emptyView]

/-- Witness for C10: with a provider whose columns fetch fails, `update`
returns the error, the columns sub-view is reset, and the three later
sub-views keep their prior state. -/
theorem update_failure_leaves_later_untouched_witness :
    (opsSample.update sampleDb sampleTable poolColsFail).1 =
      Except.error "columns fetch failed" ∧
    (opsSample.update sampleDb sampleTable poolColsFail).2.new_user =
      emptyView ∧
    (opsSample.update sampleDb sampleTable poolColsFail).2.del_user =
      opsSample.del_user ∧
    (opsSample.update sampleDb sampleTable poolColsFail).2.new_graph =
      opsSample.new_graph ∧
    (opsSample.update sampleDb sampleTable poolColsFail).2.del_graph =
      opsSample.del_graph := by
  have h := update_failure_leaves_later_untouched poolColsFail sampleDb
    sampleTable opsSample
  exact h.1 "columns fetch failed" rfl

end Gobang
